import Mathlib

/-!
Shallow embedding of the FlowForge browser client
(`src/web/static/js/api.js`, `src/web/static/js/auth.js`).

The client is single-threaded and event-driven; every remote call is
modelled by passing the call's outcome (an `Except`) into the embedded
function, and DOM side effects (toasts, issued requests, view changes)
are modelled as an explicit event trace.  Machine numbers that the code
manipulates (`Date.now()`, run counts, `Math.round`) are modelled as
`Nat`/`Int`/`ℚ` with exact arithmetic.  `JSON.parse` / `JSON.stringify`
are modelled by an executable JSON value type together with a fuel-based
recursive-descent parser and a serializer; the parser covers the JSON
fragment the client exchanges (null, booleans, integer numerals,
strings with simple escapes, arrays, objects).
-/

/-- Brace characters, used when building JSON text. -/
def lbrace : Char := '\x7b'

def rbrace : Char := '\x7d'

/-- JSON values as produced by the platform `JSON.parse`. -/
inductive Json where
  | null
  | bool (b : Bool)
  | num (n : Int)
  | str (s : String)
  | arr (items : List Json)
  | obj (fields : List (String × Json))

/-- Escape a string body for JSON serialization. -/
def escapeString (s : String) : String :=
  s.data.foldl
    (fun acc c =>
      if c == '"' then acc ++ "\\\""
      else if c == '\\' then acc ++ "\\\\"
      else acc.push c) ""

mutual

/-- Model of the platform `JSON.stringify`. -/
def jsonStringify : Json → String
  | Json.null => "null"
  | Json.bool true => "true"
  | Json.bool false => "false"
  | Json.num n => toString n
  | Json.str s => "\"" ++ escapeString s ++ "\""
  | Json.arr items => "[" ++ stringifyItems items ++ "]"
  | Json.obj fields => String.mk [lbrace] ++ stringifyFields fields ++ String.mk [rbrace]

def stringifyItems : List Json → String
  | [] => ""
  | [x] => jsonStringify x
  | x :: y :: xs => jsonStringify x ++ "," ++ stringifyItems (y :: xs)

def stringifyFields : List (String × Json) → String
  | [] => ""
  | [(k, v)] => "\"" ++ escapeString k ++ "\":" ++ jsonStringify v
  | (k, v) :: f :: fs =>
      "\"" ++ escapeString k ++ "\":" ++ jsonStringify v ++ "," ++ stringifyFields (f :: fs)

end

/-- JSON whitespace characters. -/
def isJsonWs (c : Char) : Bool :=
  c == ' ' || c == '\n' || c == '\t' || c == '\r'

/-- Drop leading whitespace from a character stream. -/
def skipWs : List Char → List Char
  | [] => []
  | c :: cs => if isJsonWs c then skipWs cs else c :: cs

/-- Decode a JSON string escape character. -/
def unescapeChar (e : Char) : Option Char :=
  if e == '"' then some '"'
  else if e == '\\' then some '\\'
  else if e == '/' then some '/'
  else if e == 'n' then some '\n'
  else if e == 't' then some '\t'
  else if e == 'r' then some '\r'
  else none

/-- Parse the body of a JSON string (the opening quote already consumed),
returning the decoded string and the remaining stream. -/
def parseStringChars : List Char → Option (String × List Char)
  | [] => none
  | c :: cs =>
    if c == '"' then some ("", cs)
    else if c == '\\' then
      match cs with
      | [] => none
      | e :: cs2 =>
        match unescapeChar e with
        | none => none
        | some ch =>
          match parseStringChars cs2 with
          | some (s, rest) => some (String.mk (ch :: s.data), rest)
          | none => none
    else
      match parseStringChars cs with
      | some (s, rest) => some (String.mk (c :: s.data), rest)
      | none => none

/-- Split a maximal run of decimal digits off the front of the stream. -/
def parseDigits : List Char → List Char × List Char
  | [] => ([], [])
  | c :: cs =>
    if c.isDigit then
      match parseDigits cs with
      | (ds, rest) => (c :: ds, rest)
    else ([], c :: cs)

/-- Numeric value of a digit run. -/
def digitsVal (ds : List Char) : Nat :=
  ds.foldl (fun a c => a * 10 + (c.toNat - 48)) 0

/-- Consume an expected literal character sequence. -/
def dropLit : List Char → List Char → Option (List Char)
  | [], rest => some rest
  | _ :: _, [] => none
  | l :: ls, c :: cs => if c == l then dropLit ls cs else none

mutual

/-- Fuel-based JSON value parser (model of the platform `JSON.parse`). -/
def parseValue : Nat → List Char → Option (Json × List Char)
  | 0, _ => none
  | fuel + 1, input =>
    match skipWs input with
    | [] => none
    | c :: cs =>
      if c == '"' then
        match parseStringChars cs with
        | some (s, rest) => some (Json.str s, rest)
        | none => none
      else if c == lbrace then parseFields fuel cs
      else if c == '[' then parseElems fuel cs
      else if c == 't' then
        match dropLit ['r', 'u', 'e'] cs with
        | some rest => some (Json.bool true, rest)
        | none => none
      else if c == 'f' then
        match dropLit ['a', 'l', 's', 'e'] cs with
        | some rest => some (Json.bool false, rest)
        | none => none
      else if c == 'n' then
        match dropLit ['u', 'l', 'l'] cs with
        | some rest => some (Json.null, rest)
        | none => none
      else if c == '-' then
        match parseDigits cs with
        | ([], _) => none
        | (ds, rest) => some (Json.num (-(digitsVal ds : Int)), rest)
      else if c.isDigit then
        match parseDigits (c :: cs) with
        | (ds, rest) => some (Json.num (digitsVal ds), rest)
      else none

/-- Parse a JSON object after its opening brace. -/
def parseFields : Nat → List Char → Option (Json × List Char)
  | 0, _ => none
  | fuel + 1, input =>
    match skipWs input with
    | [] => none
    | c :: cs =>
      if c == rbrace then some (Json.obj [], cs)
      else
        match parseFieldList fuel (c :: cs) with
        | some (fs, rest) => some (Json.obj fs, rest)
        | none => none

/-- Parse a non-empty comma-separated member list of a JSON object. -/
def parseFieldList : Nat → List Char → Option (List (String × Json) × List Char)
  | 0, _ => none
  | fuel + 1, input =>
    match skipWs input with
    | [] => none
    | c :: cs =>
      if c == '"' then
        match parseStringChars cs with
        | none => none
        | some (k, rest1) =>
          match skipWs rest1 with
          | ':' :: rest2 =>
            match parseValue fuel rest2 with
            | none => none
            | some (v, rest3) =>
              match skipWs rest3 with
              | [] => none
              | c2 :: rest4 =>
                if c2 == ',' then
                  match parseFieldList fuel rest4 with
                  | some (fs, rest5) => some ((k, v) :: fs, rest5)
                  | none => none
                else if c2 == rbrace then some ([(k, v)], rest4)
                else none
          | _ => none
      else none

/-- Parse a JSON array after its opening bracket. -/
def parseElems : Nat → List Char → Option (Json × List Char)
  | 0, _ => none
  | fuel + 1, input =>
    match skipWs input with
    | [] => none
    | c :: cs =>
      if c == ']' then some (Json.arr [], cs)
      else
        match parseElemList fuel (c :: cs) with
        | some (vs, rest) => some (Json.arr vs, rest)
        | none => none

/-- Parse a non-empty comma-separated element list of a JSON array. -/
def parseElemList : Nat → List Char → Option (List Json × List Char)
  | 0, _ => none
  | fuel + 1, input =>
    match parseValue fuel input with
    | none => none
    | some (v, rest) =>
      match skipWs rest with
      | [] => none
      | c :: rest2 =>
        if c == ',' then
          match parseElemList fuel rest2 with
          | some (vs, rest3) => some (v :: vs, rest3)
          | none => none
        else if c == ']' then some ([v], rest2)
        else none

end

/-- Model of the platform `JSON.parse`: `none` when `JSON.parse` would throw. -/
def jsonParse (s : String) : Option Json :=
  match parseValue (2 * s.length + 4) s.data with
  | some (j, rest) => if (skipWs rest).isEmpty then some j else none
  | none => none

/-! JS value helpers used by the client code. -/

/-- JS truthiness of a JSON value (`NaN` does not arise: numbers are exact). -/
def jsTruthy : Json → Bool
  | Json.null => false
  | Json.bool b => b
  | Json.num n => n != 0
  | Json.str s => s != ""
  | Json.arr _ => true
  | Json.obj _ => true

/-- JS property access `v.key` on a parsed JSON value: `none` stands for
`undefined` (non-object receiver or absent key; later duplicate keys win,
as in `JSON.parse`). -/
def lookupField : List (String × Json) → String → Option Json
  | [], _ => none
  | (k, v) :: rest, key =>
    match lookupField rest key with
    | some r => some r
    | none => if k == key then some v else none

def getField : Json → String → Option Json
  | Json.obj fields, key => lookupField fields key
  | _, _ => none

mutual

/-- JS string coercion `String(v)` of a JSON value, as used by `new Error(x)`.
Arrays coerce through `Array.prototype.join`, which renders `null` elements
as the empty string: `String([null])` is `""`, not `"null"`. -/
def jsToString : Json → String
  | Json.null => "null"
  | Json.bool true => "true"
  | Json.bool false => "false"
  | Json.num n => toString n
  | Json.str s => s
  | Json.arr items => jsToStringItems items
  | Json.obj _ => "[object Object]"

def jsToStringItems : List Json → String
  | [] => ""
  | [Json.null] => ""
  | [x] => jsToString x
  | Json.null :: y :: xs => "," ++ jsToStringItems (y :: xs)
  | x :: y :: xs => jsToString x ++ "," ++ jsToStringItems (y :: xs)

end

/-- First step of a JS `a || b` chain: keep the value only when truthy. -/
def pickTruthy : Option Json → Option Json
  | some v => if jsTruthy v then some v else none
  | none => none

/-- JS truthiness of a nullable string (`!!s`). -/
def jsTruthyOptStr : Option String → Bool
  | some s => s != ""
  | none => false

/-- Model of `localStorage.getItem('user') || 'null'`: an absent entry and an
empty-string entry are both replaced by the literal text `null`. -/
def jsOrNullLit : Option String → String
  | none => "null"
  | some v => if v == "" then "null" else v

/-- Model of `String.prototype.trim`. -/
def jsTrim (s : String) : String :=
  String.mk (List.reverse ((List.reverse (s.data.dropWhile isJsonWs)).dropWhile isJsonWs))

/-! Session Manager / Transport Gateway (`class APIClient`). -/

/-- The two durable entries the client keeps in `localStorage`. -/
structure Storage where
  auth_token : Option String
  user : Option String

/-- In-memory `APIClient` instance state. -/
structure APIClient where
  baseURL : String
  token : Option String
  user : Json

/-- Embedding of the `APIClient` constructor (api.js lines 3-7).  It reads the
persisted credential and profile; `JSON.parse` of a malformed stored profile
throws, which the constructor does not catch — modelled as `Except.error ()`. -/
def APIClient.construct (origin : String) (st : Storage) : Except Unit APIClient :=
  match jsonParse (jsOrNullLit st.user) with
  | some u => Except.ok { baseURL := origin, token := st.auth_token, user := u }
  | none => Except.error ()

/-- Embedding of `APIClient.isAuthenticated` (api.js lines 79-81): `!!this.token`. -/
def APIClient.isAuthenticated (c : APIClient) : Bool :=
  jsTruthyOptStr c.token

/-- Embedding of `APIClient.setAuth` (api.js lines 65-70). -/
def APIClient.setAuth (c : APIClient) (st : Storage) (token : String) (user : Json) :
    APIClient × Storage :=
  ({ c with token := some token, user := user },
   { st with auth_token := some token, user := some (jsonStringify user) })

/-- Embedding of `APIClient.logout` (api.js lines 72-77). -/
def APIClient.logout (c : APIClient) (st : Storage) : APIClient × Storage :=
  ({ c with token := none, user := Json.null }, { st with auth_token := none, user := none })

/-- Parsed body of a successful `/auth/login` or `/auth/signup` response. -/
structure AuthData where
  api_key : Option String
  user : Json

/-- Embedding of `APIClient.login` (api.js lines 52-63).  The outcome of the
underlying `request` call is passed in as `resp`; on a transport failure the
error propagates unchanged.  `if (data.api_key)` is JS truthiness. -/
def APIClient.login (c : APIClient) (st : Storage) (resp : Except String AuthData) :
    Except String (APIClient × Storage × AuthData) :=
  match resp with
  | Except.error e => Except.error e
  | Except.ok data =>
    match data.api_key with
    | some k =>
      if k != "" then
        let p := APIClient.setAuth c st k data.user
        Except.ok (p.1, p.2, data)
      else Except.ok (c, st, data)
    | none => Except.ok (c, st, data)

/-- Embedding of `APIClient.signup` (api.js lines 39-50); identical session
handling to `login`, only the endpoint differs. -/
def APIClient.signup (c : APIClient) (st : Storage) (resp : Except String AuthData) :
    Except String (APIClient × Storage × AuthData) :=
  match resp with
  | Except.error e => Except.error e
  | Except.ok data =>
    match data.api_key with
    | some k =>
      if k != "" then
        let p := APIClient.setAuth c st k data.user
        Except.ok (p.1, p.2, data)
      else Except.ok (c, st, data)
    | none => Except.ok (c, st, data)

/-- A transport (`fetch`) response as the Gateway sees it: success flag,
status text, and the outcome of `response.json()`. -/
structure TransportResponse where
  ok : Bool
  statusText : String
  body : Except Unit Json

/-- The headers `request` attaches (api.js lines 11-18): default content type,
plus the credential header when the token is truthy. -/
def requestHeaders (c : APIClient) : List (String × String) :=
  if jsTruthyOptStr c.token then
    [("Content-Type", "application/json"), ("X-API-Key", c.token.getD "")]
  else [("Content-Type", "application/json")]

/-- Message of the `TypeError` thrown by the property access `error.detail`
when the parsed envelope is JSON `null` (api.js line 28): a body whose text
is `null` is fulfilled by `response.json()` (the `.catch` does not fire),
reading `.detail` of `null` then throws before any `Error` is constructed,
and the outer catch rethrows that `TypeError` unchanged.  The text is the V8
message the client's target browsers produce.  `null` is the only parse
result that throws here: every other primitive boxes, so its property reads
yield `undefined`. -/
def nullReadDetailMessage : String := "Cannot read properties of null (reading 'detail')"

/-- Message of the single error value `request` raises for a non-success
response (api.js lines 26-28): `response.json().catch(() => ({ detail:
response.statusText }))`, then `throw new Error(error.detail || error.message
|| 'Request failed')` — except that when the envelope is `null` the property
access itself throws a `TypeError`, which propagates instead of a
constructed message. -/
def responseErrorMessage (statusText : String) (body : Except Unit Json) : String :=
  let env : Json :=
    match body with
    | Except.ok j => j
    | Except.error _ => Json.obj [("detail", Json.str statusText)]
  match env with
  | Json.null => nullReadDetailMessage
  | envv =>
    match pickTruthy (getField envv "detail") with
    | some v => jsToString v
    | none =>
      match pickTruthy (getField envv "message") with
      | some v => jsToString v
      | none => "Request failed"

/-- Embedding of `APIClient.request` (api.js lines 9-36).  On success the
parsed body is returned; on a non-success status exactly one error value is
raised carrying `responseErrorMessage`; a body that fails to parse on a
success status rethrows the parse error (outer catch logs and rethrows,
leaving the control flow unchanged). -/
def APIClient.request (c : APIClient) (resp : TransportResponse) : Except String Json :=
  if resp.ok then
    match resp.body with
    | Except.ok j => Except.ok j
    | Except.error _ => Except.error "Unexpected end of JSON input"
  else Except.error (responseErrorMessage resp.statusText resp.body)

/-! Workflow Draft Editor (`const WorkflowBuilder`). -/

/-- A step of the workflow draft (api.js lines 316-321). -/
structure Step where
  id : String
  service : String
  action : String
  config : Json

/-- The remote workflow a draft may have been loaded from; only its id is
consulted by the builder (`this.currentWorkflow.id`, api.js line 418). -/
structure RemoteWorkflow where
  id : String

/-- Catalog entries held by the builder. -/
structure ServiceInfo where
  name : String

structure Connector where
  name : String

/-- Mutable state of the `WorkflowBuilder` singleton (api.js lines 209-212). -/
structure WorkflowBuilderState where
  currentWorkflow : Option RemoteWorkflow
  currentSteps : List Step
  availableServices : List ServiceInfo
  availableConnectors : List Connector

/-- Initial builder state (the object literal's fields). -/
def builderStart : WorkflowBuilderState :=
  { currentWorkflow := none, currentSteps := [], availableServices := [],
    availableConnectors := [] }

namespace WorkflowBuilder

/-- Embedding of `WorkflowBuilder.init`'s catalog load (api.js lines 214-228):
`Promise.all([api.getServices(), api.getConnectors()])` with all-or-nothing
join; on failure the error is only logged and both catalog lists stay as they
were. -/
structure ServicesData where
  services : Option (List ServiceInfo)

structure ConnectorsData where
  connectors : Option (List Connector)

def init (b : WorkflowBuilderState) (servicesResp : Except String ServicesData)
    (connectorsResp : Except String ConnectorsData) : WorkflowBuilderState :=
  match servicesResp, connectorsResp with
  | Except.ok sd, Except.ok cd =>
    { b with availableServices := sd.services.getD [],
             availableConnectors := cd.connectors.getD [] }
  | _, _ => b

/-- Embedding of `WorkflowBuilder.addStep` (api.js lines 298-326).  The form
values are the `service`, `action` and `configText` arguments, and
`Date.now()` is the explicit `now` argument.  A validation failure leaves the
state unchanged and reports the toast message as an error. -/
def addStep (b : WorkflowBuilderState) (service action configText : String) (now : Nat) :
    Except String WorkflowBuilderState :=
  if service = "" ∨ action = "" then Except.error "Please select service and action"
  else
    match jsonParse configText with
    | none => Except.error "Invalid JSON configuration"
    | some config =>
      Except.ok { b with currentSteps := b.currentSteps ++
        [{ id := "step_" ++ toString now, service := service, action := action,
           config := config }] }

/-- Embedding of `WorkflowBuilder.removeStep` (api.js lines 328-331). -/
def removeStep (b : WorkflowBuilderState) (stepId : String) : WorkflowBuilderState :=
  { b with currentSteps := b.currentSteps.filter (fun s => s.id != stepId) }

end WorkflowBuilder

/-! Event traces for operations whose effects are requests and notifications. -/

/-- Workflow payload submitted by `saveWorkflow` (api.js lines 407-413). -/
structure WorkflowPayload where
  name : String
  description : String
  triggerType : String
  steps : List Step
  status : String

/-- Observable actions of the builder and list controllers, in order. -/
inductive Ev where
  | toast (msg : String) (kind : String)
  | createRequest (payload : WorkflowPayload)
  | updateRequest (id : String) (payload : WorkflowPayload)
  | executeRequest (id : String)
  | deleteRequest (endpoint : String)
  | loadWorkflowsCall
  | loadDashboardCall
  | loadCredentialsCall
  | showViewCall (view : String)

/-- Whether an event is an issued network request. -/
def Ev.isNetwork : Ev → Bool
  | Ev.createRequest _ => true
  | Ev.updateRequest _ _ => true
  | Ev.executeRequest _ => true
  | Ev.deleteRequest _ => true
  | _ => false

/-- Whether an event is a delete request (undoing a save would need one). -/
def Ev.isDelete : Ev → Bool
  | Ev.deleteRequest _ => true
  | _ => false

namespace WorkflowBuilder

/-- Body of a successful create/update response (`result.workflow`). -/
structure SavedWorkflow where
  id : String

structure SaveResult where
  workflow : Option SavedWorkflow

/-- Embedding of `WorkflowBuilder.saveWorkflow` (api.js lines 391-435).  The
DOM form fields are the raw string arguments; the outcomes of the
create/update call and of the execute call are passed in as `saveResp` and
`execResp`.  The returned trace lists the toasts, requests and navigation in
program order; the returned state is the builder state afterwards (the
function never mutates the draft). -/
def saveWorkflow (b : WorkflowBuilderState)
    (nameRaw descriptionRaw triggerType statusVal : String) (andRun : Bool)
    (saveResp : Except String SaveResult) (execResp : Except String Json) :
    List Ev × WorkflowBuilderState :=
  let name := jsTrim nameRaw
  if name = "" then ([Ev.toast "Please enter a workflow name" "error"], b)
  else if b.currentSteps.length = 0 then
    ([Ev.toast "Please add at least one step" "error"], b)
  else
    let payload : WorkflowPayload :=
      { name := name, description := jsTrim descriptionRaw, triggerType := triggerType,
        steps := b.currentSteps, status := statusVal }
    let saveReq : Ev :=
      match b.currentWorkflow with
      | some w => Ev.updateRequest w.id payload
      | none => Ev.createRequest payload
    let okToast : Ev :=
      match b.currentWorkflow with
      | some _ => Ev.toast "Workflow updated successfully" "success"
      | none => Ev.toast "Workflow created successfully" "success"
    match saveResp with
    | Except.error e =>
      ([saveReq, Ev.toast ("Failed to save workflow: " ++ e) "error"], b)
    | Except.ok result =>
      match andRun, result.workflow with
      | true, some w =>
        match execResp with
        | Except.error e =>
          ([saveReq, okToast, Ev.executeRequest w.id,
            Ev.toast ("Failed to save workflow: " ++ e) "error"], b)
        | Except.ok _ =>
          ([saveReq, okToast, Ev.executeRequest w.id,
            Ev.toast "Workflow execution started" "success",
            Ev.loadWorkflowsCall, Ev.showViewCall "workflows"], b)
      | _, _ =>
        ([saveReq, okToast, Ev.loadWorkflowsCall, Ev.showViewCall "workflows"], b)

end WorkflowBuilder

/-! Dashboard / List Controllers (`const App`). -/

/-- Cached workflow list entry; only the fields the controllers consult. -/
structure Workflow where
  id : String
  name : String
  status : String

/-- Cached run (execution) list entry. -/
structure Run where
  id : String
  workflow_id : String
  status : String

/-- Cached credential list entry. -/
structure Credential where
  id : String
  name : String
  service : String

/-- Mutable caches of the `App` singleton (api.js lines 442-445). -/
structure AppState where
  workflows : List Workflow
  credentials : List Credential
  executions : List Run

/-- Parsed body shapes of the list endpoints (`data.workflows || []` etc.). -/
structure WorkflowsData where
  workflows : Option (List Workflow)

structure RunsData where
  runs : Option (List Run)

structure CredentialsData where
  credentials : Option (List Credential)

/-- The derived dashboard statistics written into the stat tiles
(api.js lines 550-559). -/
structure DashboardStats where
  totalWorkflows : Nat
  activeWorkflows : Nat
  totalExecutions : Nat
  successRate : Nat
deriving DecidableEq

namespace App

/-- Embedding of `App.loadDashboard` (api.js lines 539-567):
`Promise.all([api.getWorkflows(), api.getRuns(null, 10)])` joined
all-or-nothing; on any failure the catch block only logs and toasts, leaving
every cache untouched and the stat tiles unwritten (`none`).  `Math.round`
over exact arithmetic is `round` on `ℚ`. -/
def loadDashboard (st : AppState) (workflowsResp : Except String WorkflowsData)
    (runsResp : Except String RunsData) : AppState × Option DashboardStats :=
  match workflowsResp, runsResp with
  | Except.ok wd, Except.ok rd =>
    let workflows := wd.workflows.getD []
    let executions := rd.runs.getD []
    let activeWorkflows := (workflows.filter (fun w => w.status == "active")).length
    let successfulRuns := (executions.filter (fun e => e.status == "success")).length
    let successRate : Nat :=
      if executions.length > 0 then
        (round ((successfulRuns : ℚ) / (executions.length : ℚ) * 100)).toNat
      else 0
    ({ st with workflows := workflows, executions := executions },
     some { totalWorkflows := workflows.length, activeWorkflows := activeWorkflows,
            totalExecutions := executions.length, successRate := successRate })
  | _, _ => (st, none)

/-- Embedding of `App.loadWorkflows` (api.js lines 590-599). -/
def loadWorkflows (st : AppState) (resp : Except String WorkflowsData) : AppState :=
  match resp with
  | Except.ok d => { st with workflows := d.workflows.getD [] }
  | Except.error _ => st

/-- Embedding of `App.loadCredentials` (api.js lines 673-682). -/
def loadCredentials (st : AppState) (resp : Except String CredentialsData) : AppState :=
  match resp with
  | Except.ok d => { st with credentials := d.credentials.getD [] }
  | Except.error _ => st

/-- Embedding of `App.loadExecutions` (api.js lines 775-784). -/
def loadExecutions (st : AppState) (resp : Except String RunsData) : AppState :=
  match resp with
  | Except.ok d => { st with executions := d.runs.getD [] }
  | Except.error _ => st

/-- Embedding of `App.deleteWorkflow` (api.js lines 658-671).  `confirmed` is
the result of the `confirm` dialog; `resp` the outcome of the delete call,
issued only after confirmation. -/
def deleteWorkflow (st : AppState) (id : String) (confirmed : Bool)
    (resp : Except String Json) : List Ev × AppState :=
  if confirmed then
    match resp with
    | Except.ok _ =>
      ([Ev.deleteRequest ("/workflows/" ++ id),
        Ev.toast "Workflow deleted successfully" "success",
        Ev.loadWorkflowsCall, Ev.loadDashboardCall], st)
    | Except.error e =>
      ([Ev.deleteRequest ("/workflows/" ++ id),
        Ev.toast ("Failed to delete workflow: " ++ e) "error"], st)
  else ([], st)

/-- Embedding of `App.deleteCredential` (api.js lines 761-773).  On success it
reloads only the credential list. -/
def deleteCredential (st : AppState) (id : String) (confirmed : Bool)
    (resp : Except String Json) : List Ev × AppState :=
  if confirmed then
    match resp with
    | Except.ok _ =>
      ([Ev.deleteRequest ("/credentials/" ++ id),
        Ev.toast "Credential deleted successfully" "success",
        Ev.loadCredentialsCall], st)
    | Except.error e =>
      ([Ev.deleteRequest ("/credentials/" ++ id),
        Ev.toast ("Failed to delete credential: " ++ e) "error"], st)
  else ([], st)

end App

/-- The remote `/runs` endpoint, modelled from the spec's external contract
(section 6): the store holds runs most-recent-first and the listing returns
the first `limit` of them. -/
def getRunsResponse (remoteRuns : List Run) (limit : Nat) : RunsData :=
  { runs := some (remoteRuns.take limit) }

/-- `App.loadDashboard` run against a live remote: the workflows fetch
returns `remoteWorkflows` and the runs fetch is `getRuns(null, 10)`
(api.js line 543). -/
def App.loadDashboardRemote (st : AppState) (remoteWorkflows : List Workflow)
    (remoteRuns : List Run) : AppState × Option DashboardStats :=
  App.loadDashboard st (Except.ok { workflows := some remoteWorkflows })
    (Except.ok (getRunsResponse remoteRuns 10))

/-! Shared concrete instances used by witnesses and counterexamples. -/

/-- A concrete client instance for concrete evaluations. -/
def anyClient : APIClient := { baseURL := "http://app", token := none, user := Json.null }

/-- Empty durable storage, the state before any login. -/
def storageStart : Storage := { auth_token := none, user := none }

/-- Initial `App` caches (the object literal's fields, api.js lines 442-445). -/
def appStart : AppState := { workflows := [], credentials := [], executions := [] }

/-- The profile of the spec's login example. -/
def userA : Json := Json.obj [("id", Json.num 1), ("name", Json.str "A")]

/-- A one-step draft used to instantiate save theorems. -/
def stepOne : Step :=
  { id := "step_3", service := "mail", action := "send", config := Json.obj [] }

def builderOne : WorkflowBuilderState := { builderStart with currentSteps := [stepOne] }

/-- A sample of ten runs of which seven succeeded. -/
def runsSample : List Run :=
  [{ id := "r1", workflow_id := "w", status := "success" },
   { id := "r2", workflow_id := "w", status := "success" },
   { id := "r3", workflow_id := "w", status := "success" },
   { id := "r4", workflow_id := "w", status := "success" },
   { id := "r5", workflow_id := "w", status := "success" },
   { id := "r6", workflow_id := "w", status := "success" },
   { id := "r7", workflow_id := "w", status := "success" },
   { id := "r8", workflow_id := "w", status := "failed" },
   { id := "r9", workflow_id := "w", status := "failed" },
   { id := "r10", workflow_id := "w", status := "pending" }]

/-- Spec-side statement of the amended C6 fallback chain, written from the
amended claim's words rather than from the code: when the body was not
parseable, the transport's status text when non-empty and `Request failed`
otherwise; when the body parses to `null`, the message of the `TypeError`
that the envelope's property access raises; otherwise the envelope's truthy
`detail` field when present, otherwise its truthy `message` field, and the
fixed message `Request failed` in all remaining cases (field values coerce
to text the way `new Error` coerces them, with array `null` elements
rendered empty). -/
def specErrorMessage (statusText : String) (body : Except Unit Json) : String :=
  match body with
  | Except.error _ => if statusText == "" then "Request failed" else statusText
  | Except.ok Json.null => nullReadDetailMessage
  | Except.ok env =>
    match pickTruthy (getField env "detail"), pickTruthy (getField env "message") with
    | some v, _ => jsToString v
    | none, some v => jsToString v
    | none, none => "Request failed"

/-- The code's non-success message equals the spec-side amended chain. -/
theorem responseErrorMessage_eq_spec (statusText : String) (body : Except Unit Json) :
    responseErrorMessage statusText body = specErrorMessage statusText body := by
  cases body with
  | ok env =>
    cases env with
    | obj fields =>
      unfold responseErrorMessage specErrorMessage
      cases h1 : pickTruthy (getField (Json.obj fields) "detail") <;>
        cases h2 : pickTruthy (getField (Json.obj fields) "message") <;> simp [h1, h2]
    | null => rfl
    | bool b => rfl
    | num n => rfl
    | str s => rfl
    | arr items => rfl
  | error u =>
    unfold responseErrorMessage specErrorMessage
    by_cases hst : statusText = "" <;>
      simp [hst, getField, lookupField, pickTruthy, jsTruthy, jsToString]

/-! Claim theorems. -/

/-- C1: the claim states that each successful `addStep` appends a step whose
freshly generated id differs from every id already in the list, even within
the same clock instant.  The code derives the id purely from `Date.now()`
(api.js line 317), so two successful `addStep` calls in the same millisecond
produce identical ids and the uniqueness invariant fails.  This theorem
evaluates the code at the failing input: starting from the initial draft, two
adds at instant 7 leave the list with the duplicated id `step_7`. -/
theorem C1_time_based_step_ids_collide :
    ∃ b1 b2 : WorkflowBuilderState,
      WorkflowBuilder.addStep builderStart "mail" "send" "\x7b\x7d" 7 = Except.ok b1 ∧
      WorkflowBuilder.addStep b1 "slack" "post" "\x7b\x7d" 7 = Except.ok b2 ∧
      b2.currentSteps.map Step.id = ["step_7", "step_7"] ∧
      ¬ (b2.currentSteps.map Step.id).Nodup := by
  refine ⟨_, _, rfl, rfl, rfl, by decide⟩

/-- C2 counterexample: in the reachable draft obtained by two successful
`addStep` calls within the same instant, removing the id just added deletes
both equal-id steps (`removeStep` filters on id, api.js line 329), so the
resulting list (empty) differs from the list before the pair (one step).
The claim as stated is therefore false on the code. -/
theorem C2_add_remove_counterexample :
    ∃ b1 b2 : WorkflowBuilderState,
      WorkflowBuilder.addStep builderStart "mail" "send" "\x7b\x7d" 9 = Except.ok b1 ∧
      WorkflowBuilder.addStep b1 "slack" "post" "\x7b\x7d" 9 = Except.ok b2 ∧
      (WorkflowBuilder.removeStep b2 "step_9").currentSteps.length = 0 ∧
      b1.currentSteps.length = 1 ∧
      (WorkflowBuilder.removeStep b2 "step_9").currentSteps ≠ b1.currentSteps := by
  refine ⟨_, _, rfl, rfl, rfl, rfl, ?_⟩
  intro h
  exact absurd (congrArg List.length h) (by decide)

/-- C2 amended: provided the freshly generated id `step_<now>` does not
already occur in the draft's step list, a successful `addStep` immediately
followed by `removeStep` of that id restores the previous draft state
exactly. -/
theorem C2_amended_add_remove_cancel (b : WorkflowBuilderState)
    (service action configText : String) (now : Nat) (b' : WorkflowBuilderState)
    (hok : WorkflowBuilder.addStep b service action configText now = Except.ok b')
    (hfresh : ("step_" ++ toString now) ∉ b.currentSteps.map Step.id) :
    WorkflowBuilder.removeStep b' ("step_" ++ toString now) = b := by
  unfold WorkflowBuilder.addStep at hok
  split at hok
  · exact Except.noConfusion hok
  · cases hcfg : jsonParse configText with
    | none => rw [hcfg] at hok; exact Except.noConfusion hok
    | some config =>
      rw [hcfg] at hok
      injection hok with h
      subst h
      unfold WorkflowBuilder.removeStep
      have h1 : b.currentSteps.filter (fun s => s.id != ("step_" ++ toString now)) =
          b.currentSteps := by
        apply List.filter_eq_self.mpr
        intro s hs
        simp only [bne_iff_ne, ne_eq, decide_eq_true_eq]
        intro heq
        exact hfresh (heq ▸ List.mem_map_of_mem Step.id hs)
      simp [List.filter_append, h1]

/-- C2 witness: the amended cancellation law at a concrete fresh id. -/
theorem C2_amended_add_remove_cancel_witness :
    WorkflowBuilder.addStep builderStart "mail" "send" "null" 5 =
      Except.ok { builderStart with currentSteps :=
        [{ id := "step_5", service := "mail", action := "send", config := Json.null }] } ∧
    ("step_5" ∉ builderStart.currentSteps.map Step.id) ∧
    WorkflowBuilder.removeStep { builderStart with currentSteps :=
        [{ id := "step_5", service := "mail", action := "send", config := Json.null }] }
      "step_5" = builderStart := by
  refine ⟨rfl, by decide, ?_⟩
  exact C2_amended_add_remove_cancel builderStart "mail" "send" "null" 5 _ rfl (by decide)

/-- C3: the claim requires initialization to survive any durable-storage
content, treating a malformed persisted profile as an absent session.  The
constructor applies `JSON.parse` to the stored profile unguarded (api.js
line 6), so a malformed entry makes construction throw.  First conjunct
evaluates the code at the failing input; the second shows the absent-profile
case initializes to a null session, isolating the defect to the malformed
case. -/
theorem C3_malformed_profile_crashes_construct :
    APIClient.construct "http://app" { auth_token := none, user := some "not json" } =
      Except.error () ∧
    APIClient.construct "http://app" { auth_token := none, user := none } =
      Except.ok { baseURL := "http://app", token := none, user := Json.null } :=
  ⟨rfl, rfl⟩

/-- C4: when the create/update call of `save(andRun = true)` succeeds and the
subsequent execute call fails, the trace still contains the save-success
notification (emitted before the execute call), contains the execute request
for the newly saved id, reports the execute failure, issues no delete (the
save is not undone), and leaves the draft state unchanged. -/
theorem C4_execute_failure_reported_save_kept (b : WorkflowBuilderState)
    (nameRaw descriptionRaw triggerType statusVal : String)
    (r : WorkflowBuilder.SaveResult) (w : WorkflowBuilder.SavedWorkflow) (e : String)
    (hname : jsTrim nameRaw ≠ "") (hsteps : b.currentSteps ≠ [])
    (hw : r.workflow = some w) :
    ∃ evs, WorkflowBuilder.saveWorkflow b nameRaw descriptionRaw triggerType statusVal true
        (Except.ok r) (Except.error e) = (evs, b) ∧
      (Ev.toast "Workflow created successfully" "success" ∈ evs ∨
       Ev.toast "Workflow updated successfully" "success" ∈ evs) ∧
      Ev.executeRequest w.id ∈ evs ∧
      Ev.toast ("Failed to save workflow: " ++ e) "error" ∈ evs ∧
      ∀ ev ∈ evs, ev.isDelete = false := by
  have hlen : ¬ b.currentSteps.length = 0 := fun h => hsteps (List.length_eq_zero.mp h)
  cases hcw : b.currentWorkflow with
  | none =>
    refine ⟨[Ev.createRequest
        { name := jsTrim nameRaw, description := jsTrim descriptionRaw,
          triggerType := triggerType, steps := b.currentSteps, status := statusVal },
      Ev.toast "Workflow created successfully" "success", Ev.executeRequest w.id,
      Ev.toast ("Failed to save workflow: " ++ e) "error"], ?_, ?_, ?_, ?_, ?_⟩
    · simp only [WorkflowBuilder.saveWorkflow, if_neg hname, if_neg hlen, hcw, hw]
    · exact Or.inl (by simp)
    · simp
    · simp
    · simp [List.forall_mem_cons, Ev.isDelete]
  | some cw =>
    refine ⟨[Ev.updateRequest cw.id
        { name := jsTrim nameRaw, description := jsTrim descriptionRaw,
          triggerType := triggerType, steps := b.currentSteps, status := statusVal },
      Ev.toast "Workflow updated successfully" "success", Ev.executeRequest w.id,
      Ev.toast ("Failed to save workflow: " ++ e) "error"], ?_, ?_, ?_, ?_, ?_⟩
    · simp only [WorkflowBuilder.saveWorkflow, if_neg hname, if_neg hlen, hcw, hw]
    · exact Or.inr (by simp)
    · simp
    · simp
    · simp [List.forall_mem_cons, Ev.isDelete]

/-- C4 witness: concrete save-then-failed-execute on a one-step draft. -/
theorem C4_execute_failure_reported_save_kept_witness :
    (jsTrim "Flow" ≠ "") ∧ (builderOne.currentSteps ≠ []) ∧
    ((⟨some ⟨"wf1"⟩⟩ : WorkflowBuilder.SaveResult).workflow = some ⟨"wf1"⟩) ∧
    (∃ evs, WorkflowBuilder.saveWorkflow builderOne "Flow" "" "manual" "draft" true
        (Except.ok ⟨some ⟨"wf1"⟩⟩) (Except.error "boom") = (evs, builderOne) ∧
      (Ev.toast "Workflow created successfully" "success" ∈ evs ∨
       Ev.toast "Workflow updated successfully" "success" ∈ evs) ∧
      Ev.executeRequest (⟨"wf1"⟩ : WorkflowBuilder.SavedWorkflow).id ∈ evs ∧
      Ev.toast ("Failed to save workflow: " ++ "boom") "error" ∈ evs ∧
      ∀ ev ∈ evs, ev.isDelete = false) :=
  ⟨by decide, List.cons_ne_nil _ _, rfl,
   C4_execute_failure_reported_save_kept builderOne "Flow" "" "manual" "draft"
     ⟨some ⟨"wf1"⟩⟩ ⟨"wf1"⟩ "boom" (by decide) (List.cons_ne_nil _ _) rfl⟩

/-- C5: a failed remote load commits nothing.  Either constituent of the
dashboard aggregate failing leaves both caches and the stat tiles untouched;
failed workflow, run and credential list loads leave the previous cache; and
either constituent of the catalog init failing leaves both catalog lists
unchanged. -/
theorem C5_failed_load_preserves_caches :
    (∀ (st : AppState) (e : String) (rr : Except String RunsData),
        App.loadDashboard st (Except.error e) rr = (st, none)) ∧
    (∀ (st : AppState) (wr : Except String WorkflowsData) (e : String),
        App.loadDashboard st wr (Except.error e) = (st, none)) ∧
    (∀ (st : AppState) (e : String), App.loadWorkflows st (Except.error e) = st) ∧
    (∀ (st : AppState) (e : String), App.loadExecutions st (Except.error e) = st) ∧
    (∀ (st : AppState) (e : String), App.loadCredentials st (Except.error e) = st) ∧
    (∀ (b : WorkflowBuilderState) (e : String)
        (cr : Except String WorkflowBuilder.ConnectorsData),
        WorkflowBuilder.init b (Except.error e) cr = b) ∧
    (∀ (b : WorkflowBuilderState) (sr : Except String WorkflowBuilder.ServicesData)
        (e : String), WorkflowBuilder.init b sr (Except.error e) = b) :=
  ⟨fun _ _ _ => rfl, fun _ wr _ => by cases wr <;> rfl, fun _ _ => rfl, fun _ _ => rfl,
   fun _ _ => rfl, fun _ _ _ => rfl, fun _ sr _ => by cases sr <;> rfl⟩

/-- C6 counterexample: for a non-success response whose body parses to an
envelope with neither `detail` nor `message`, the code raises the fixed
message `Request failed` (api.js line 28), not the transport's status text
`Not Found` as the claim requires. -/
theorem C6_error_message_counterexample :
    APIClient.request anyClient
        { ok := false, statusText := "Not Found", body := Except.ok (Json.obj []) } =
      Except.error "Request failed" ∧
    "Request failed" ≠ "Not Found" :=
  ⟨rfl, by decide⟩

/-- C6 amended: on every non-success response, `request` raises exactly one
error value and the caller never receives a half-parsed body.  When the body
was unparseable the message is the non-empty status text, else `Request
failed`; when the body parses to `null` the propagated error is the
`TypeError` the envelope's `detail` access raises; otherwise the message is
the envelope's truthy `detail` field when present, then its truthy `message`
field, and the fixed message `Request failed` in all remaining cases. -/
theorem C6_amended_error_message (c : APIClient) (resp : TransportResponse)
    (h : resp.ok = false) :
    APIClient.request c resp = Except.error (specErrorMessage resp.statusText resp.body) := by
  unfold APIClient.request
  rw [h, responseErrorMessage_eq_spec]
  simp

/-- C6 witness: the amended chain at a concrete unparseable-body response. -/
theorem C6_amended_error_message_witness :
    ((⟨false, "Gone", Except.error ()⟩ : TransportResponse).ok = false) ∧
    APIClient.request anyClient ⟨false, "Gone", Except.error ()⟩ =
      Except.error (specErrorMessage "Gone" (Except.error ())) ∧
    specErrorMessage "Gone" (Except.error ()) = "Gone" :=
  ⟨rfl, C6_amended_error_message anyClient ⟨false, "Gone", Except.error ()⟩ rfl, rfl⟩

/-- C7: a draft whose trimmed name is empty or whose step list is empty is
rejected by `saveWorkflow` with a single validation toast, no network request
of any kind is issued, and the draft state is unchanged. -/
theorem C7_invalid_draft_rejected_before_network (b : WorkflowBuilderState)
    (nameRaw descriptionRaw triggerType statusVal : String) (andRun : Bool)
    (saveResp : Except String WorkflowBuilder.SaveResult) (execResp : Except String Json)
    (h : jsTrim nameRaw = "" ∨ b.currentSteps = []) :
    ∃ msg, WorkflowBuilder.saveWorkflow b nameRaw descriptionRaw triggerType statusVal andRun
        saveResp execResp = ([Ev.toast msg "error"], b) ∧
      ∀ ev ∈ (WorkflowBuilder.saveWorkflow b nameRaw descriptionRaw triggerType statusVal andRun
        saveResp execResp).1, ev.isNetwork = false := by
  by_cases hn : jsTrim nameRaw = ""
  · refine ⟨"Please enter a workflow name", ?_, ?_⟩
    · simp [WorkflowBuilder.saveWorkflow, hn]
    · simp [WorkflowBuilder.saveWorkflow, hn, Ev.isNetwork]
  · have hsteps : b.currentSteps = [] := h.resolve_left hn
    refine ⟨"Please add at least one step", ?_, ?_⟩
    · simp [WorkflowBuilder.saveWorkflow, hn, hsteps]
    · simp [WorkflowBuilder.saveWorkflow, hn, hsteps, Ev.isNetwork]

/-- C7 witness: a whitespace-only name is rejected with no network traffic. -/
theorem C7_invalid_draft_rejected_before_network_witness :
    (jsTrim "   " = "" ∨ builderStart.currentSteps = []) ∧
    (∃ msg, WorkflowBuilder.saveWorkflow builderStart "   " "" "manual" "draft" false
        (Except.error "unused") (Except.error "unused") =
        ([Ev.toast msg "error"], builderStart) ∧
      ∀ ev ∈ (WorkflowBuilder.saveWorkflow builderStart "   " "" "manual" "draft" false
        (Except.error "unused") (Except.error "unused")).1, ev.isNetwork = false) :=
  ⟨Or.inl rfl,
   C7_invalid_draft_rejected_before_network builderStart "   " "" "manual" "draft" false
     (Except.error "unused") (Except.error "unused") (Or.inl rfl)⟩

/-- C8: a successful login or signup whose response carries a non-empty
credential writes credential and profile into the in-memory session and into
durable storage; `isAuthenticated` is then true, and a freshly constructed
client (simulating a reload) restores the same credential and profile from
storage, given that the stored profile round-trips through the platform
serializer and parser. -/
theorem C8_login_persists_session (c : APIClient) (st : Storage) (origin t : String)
    (u : Json) (ht : t ≠ "")
    (hrt : jsonParse (jsOrNullLit (some (jsonStringify u))) = some u) :
    (∃ c' st', APIClient.login c st (Except.ok { api_key := some t, user := u }) =
        Except.ok (c', st', { api_key := some t, user := u }) ∧
      c'.isAuthenticated = true ∧ c'.token = some t ∧ c'.user = u ∧
      st'.auth_token = some t ∧
      APIClient.construct origin st' =
        Except.ok { baseURL := origin, token := some t, user := u }) ∧
    (∃ c' st', APIClient.signup c st (Except.ok { api_key := some t, user := u }) =
        Except.ok (c', st', { api_key := some t, user := u }) ∧
      c'.isAuthenticated = true ∧ c'.token = some t ∧ c'.user = u ∧
      st'.auth_token = some t ∧
      APIClient.construct origin st' =
        Except.ok { baseURL := origin, token := some t, user := u }) := by
  have htb : (t != "") = true := by simpa using ht
  constructor
  · refine ⟨{ c with token := some t, user := u },
      { st with auth_token := some t, user := some (jsonStringify u) },
      ?_, ?_, rfl, rfl, rfl, ?_⟩
    · simp [APIClient.login, APIClient.setAuth, htb]
    · simp [APIClient.isAuthenticated, jsTruthyOptStr, htb]
    · simp [APIClient.construct, hrt]
  · refine ⟨{ c with token := some t, user := u },
      { st with auth_token := some t, user := some (jsonStringify u) },
      ?_, ?_, rfl, rfl, rfl, ?_⟩
    · simp [APIClient.signup, APIClient.setAuth, htb]
    · simp [APIClient.isAuthenticated, jsTruthyOptStr, htb]
    · simp [APIClient.construct, hrt]

/-- C8 witness: the spec's example — credential `tok1`, profile
`(id 1, name A)` — is persisted and restored across a fresh construction. -/
theorem C8_login_persists_session_witness :
    ("tok1" ≠ "") ∧
    jsonParse (jsOrNullLit (some (jsonStringify userA))) = some userA ∧
    (∃ c' st', APIClient.login anyClient storageStart
        (Except.ok { api_key := some "tok1", user := userA }) =
        Except.ok (c', st', { api_key := some "tok1", user := userA }) ∧
      c'.isAuthenticated = true ∧ c'.token = some "tok1" ∧ c'.user = userA ∧
      st'.auth_token = some "tok1" ∧
      APIClient.construct "http://app" st' =
        Except.ok { baseURL := "http://app", token := some "tok1", user := userA }) :=
  ⟨by decide, rfl,
   (C8_login_persists_session anyClient storageStart "http://app" "tok1" userA
     (by decide) rfl).1⟩

/-- C9 counterexample: a confirmed, successful credential delete reloads only
the credential list (api.js line 769); the dashboard aggregate is not
reloaded, contradicting the claim's "both the owning list and the dashboard
aggregate are reloaded" for credentials. -/
theorem C9_credential_delete_counterexample :
    App.deleteCredential appStart "c1" true (Except.ok Json.null) =
      ([Ev.deleteRequest "/credentials/c1",
        Ev.toast "Credential deleted successfully" "success",
        Ev.loadCredentialsCall], appStart) ∧
    Ev.loadDashboardCall ∉
      (App.deleteCredential appStart "c1" true (Except.ok Json.null)).1 := by
  refine ⟨rfl, ?_⟩
  intro hmem
  simp [App.deleteCredential] at hmem

/-- C9 amended: withholding confirmation issues no delete call and leaves the
cached lists unchanged, for workflows and credentials alike; on a confirmed,
successful delete, a workflow delete reloads both the workflow list and the
dashboard aggregate, while a credential delete reloads only the owning
credential list and does not reload the dashboard aggregate. -/
theorem C9_amended_delete_confirmation (st : AppState) (id : String)
    (resp : Except String Json) (j : Json) (hok : resp = Except.ok j) :
    App.deleteWorkflow st id false resp = ([], st) ∧
    App.deleteCredential st id false resp = ([], st) ∧
    (App.deleteWorkflow st id false resp).1.filter Ev.isNetwork = [] ∧
    (App.deleteCredential st id false resp).1.filter Ev.isNetwork = [] ∧
    (Ev.loadWorkflowsCall ∈ (App.deleteWorkflow st id true resp).1 ∧
     Ev.loadDashboardCall ∈ (App.deleteWorkflow st id true resp).1) ∧
    (Ev.loadCredentialsCall ∈ (App.deleteCredential st id true resp).1 ∧
     Ev.loadDashboardCall ∉ (App.deleteCredential st id true resp).1) := by
  subst hok
  refine ⟨rfl, rfl, rfl, rfl,
    ⟨by simp [App.deleteWorkflow], by simp [App.deleteWorkflow]⟩,
    ⟨by simp [App.deleteCredential], ?_⟩⟩
  intro hmem
  simp [App.deleteCredential] at hmem

/-- C9 witness: the amended delete behaviour at concrete inputs. -/
theorem C9_amended_delete_confirmation_witness :
    ((Except.ok Json.null : Except String Json) = Except.ok Json.null) ∧
    App.deleteWorkflow appStart "w1" false (Except.ok Json.null) = ([], appStart) ∧
    App.deleteCredential appStart "w1" false (Except.ok Json.null) = ([], appStart) ∧
    (App.deleteWorkflow appStart "w1" false
      (Except.ok Json.null)).1.filter Ev.isNetwork = [] ∧
    (App.deleteCredential appStart "w1" false
      (Except.ok Json.null)).1.filter Ev.isNetwork = [] ∧
    (Ev.loadWorkflowsCall ∈ (App.deleteWorkflow appStart "w1" true (Except.ok Json.null)).1 ∧
     Ev.loadDashboardCall ∈ (App.deleteWorkflow appStart "w1" true (Except.ok Json.null)).1) ∧
    (Ev.loadCredentialsCall ∈
        (App.deleteCredential appStart "w1" true (Except.ok Json.null)).1 ∧
     Ev.loadDashboardCall ∉
        (App.deleteCredential appStart "w1" true (Except.ok Json.null)).1) :=
  ⟨rfl, C9_amended_delete_confirmation appStart "w1" (Except.ok Json.null) Json.null rfl⟩

/-- C10: the dashboard aggregate samples the most recent ten runs (the runs
fetch is issued with limit 10 against the most-recent-first remote store) and
computes the success rate as the rounded percentage of successful runs in the
sample, zero on an empty sample; in particular seven successes out of ten
yield 70 and the empty sample yields 0. -/
theorem C10_dashboard_success_rate :
    (∀ (st : AppState) (wfs : List Workflow) (runs : List Run),
      (App.loadDashboardRemote st wfs runs).1.executions = runs.take 10 ∧
      ∃ stats, (App.loadDashboardRemote st wfs runs).2 = some stats ∧
        stats.totalExecutions = (runs.take 10).length ∧
        stats.successRate =
          (if (runs.take 10).length = 0 then 0 else
            (round ((((runs.take 10).filter (fun r => r.status == "success")).length : ℚ) /
              ((runs.take 10).length : ℚ) * 100)).toNat)) ∧
    (App.loadDashboardRemote appStart [] runsSample).2 =
      some { totalWorkflows := 0, activeWorkflows := 0, totalExecutions := 10,
             successRate := 70 } ∧
    (App.loadDashboardRemote appStart [] []).2 =
      some { totalWorkflows := 0, activeWorkflows := 0, totalExecutions := 0,
             successRate := 0 } := by
  refine ⟨?_, ?_, rfl⟩
  · intro st wfs runs
    refine ⟨rfl, ?_⟩
    rcases Nat.eq_zero_or_pos (runs.take 10).length with h | h
    · exact ⟨_, rfl, rfl, by
        simp [App.loadDashboardRemote, App.loadDashboard, getRunsResponse, h]⟩
    · refine ⟨_, rfl, rfl, ?_⟩
      have h2 : (List.take 10 runs).length ≠ 0 := Nat.pos_iff_ne_zero.mp h
      have h1 : 0 < runs.length := by
        have h3 := h
        rw [List.length_take] at h3
        exact lt_of_lt_of_le h3 (min_le_right _ _)
      simp [App.loadDashboardRemote, App.loadDashboard, getRunsResponse, h1, h2]
      rw [if_neg h2]
  · simp [App.loadDashboardRemote, App.loadDashboard, getRunsResponse, runsSample, appStart]
    norm_num [round_eq]
    decide
